import Mathlib

/-
Verification of the navigation controller in src/navigate.py against its
specification.  The controller is shallowly embedded: Python floats and
angle (Bearing) values are modelled as exact rationals, the mutable
`Navigator` object becomes an explicit `NavState` record threaded through
`update`, the per-tick sensor readings (heading, wind, derived bearings,
wall-clock time) become an explicit `TickInput`, and the exceptions the
Python code can raise become an `Except PyErr` result carrying the state
as it stood at the raise point.

The external library `boatdclient` (Bearing arithmetic, Point geometry) is
not part of this repository.  Its operations are modelled from the spec:
`Angle -- a real value conceptually on a circle of 360 units; all
angle-producing operations normalize; a delta(a,b) operation returns the
signed shortest rotation from a to b in [-180, 180]`.  Geometric queries
(`position.bearing_to`, `position.cross_track_distance`) are modelled as
tick inputs, since within one tick they are pure sensor-derived values.
-/

/-- Python's `%` operator on floats with a positive modulus: the remainder
takes the sign of the divisor, `x % m = x - m * floor (x / m)`. -/
def pymod (x m : ℚ) : ℚ := x - m * ⌊x / m⌋

/-- Normalization of a bearing into [0, 360).  Modelled from the spec:
all angle-producing operations of the `boatdclient.Bearing` type
normalize onto the 360-unit circle. -/
def bnorm (x : ℚ) : ℚ := pymod x 360

/-- Source lines 9-14: `mirror_angle` returns `180 - (angle % 180)` when
the input exceeds 180 and the input unchanged otherwise.  Note that the
source does not normalize its input modulo 360 first. -/
def mirror_angle (angle : ℚ) : ℚ :=
  if 180 < angle then 180 - pymod angle 180 else angle

/-- Modelled from the spec: `boatdclient.Bearing.delta`, the signed
shortest rotation from `a` to `b`, realised as
`((b - a + 180) mod 360) - 180`, with values in [-180, 180). -/
def delta (a b : ℚ) : ℚ := pymod (b - a + 180) 360 - 180

/-- Source lines 142-145: the integrator clamp,
`if integrator > max: max elif integrator < -max: -max`. -/
def clampQ (x m : ℚ) : ℚ := if m < x then m else if x < -m then -m else x

/-- Source lines 149-152: the rudder clamp to [-180, 180]. -/
def clamp180 (x : ℚ) : ℚ := if 180 < x then 180 else if x < -180 then -180 else x

/-- Modelled from the spec: a geographic waypoint (`boatdclient.Point`),
a latitude/longitude pair. -/
structure GeoPoint where
  lat : ℚ
  lon : ℚ
deriving DecidableEq

/-- A navigation target: either a bare compass bearing or a waypoint
(`Point`), as accepted by `Navigator.set_target` / `check_new_target`. -/
inductive Target where
  | bearing (b : ℚ)
  | point (p : GeoPoint)
deriving DecidableEq

/-- The exceptions the Python `update` can raise: the undefined global
`override_rudder` on line 160 (NameError), `position.bearing_to` applied
to a bare `Bearing` target on line 98 (AttributeError), and arithmetic on
a `None` target (TypeError). -/
inductive PyErr where
  | nameError
  | attributeError
  | typeError
deriving DecidableEq

/-- The sensor readings and clock values consumed during one call of
`Navigator.update`: `boat.heading`, `boat.wind.direction`,
`boat.wind.relative_direction`, `boat.position.bearing_to(target)` (used
when the target is a waypoint), `boat.position.cross_track_distance
(prev_target, target)` (used when both targets are waypoints), and
`time.time()`. -/
structure TickInput where
  heading : ℚ
  wind_direction : ℚ
  wind_relative_direction : ℚ
  bearing_to_target : ℚ
  cross_track_distance : ℚ
  now : ℚ
deriving DecidableEq

/-- The mutable fields of the Python `Navigator` object (lines 26-59). -/
structure NavState where
  enable_tacking : Bool
  enable_cross_track_minimization : Bool
  enable_emergency_maneuver : Bool
  target : Option Target
  prev_target : Option Target
  hardover_rudder_timeout : ℚ
  hardover_rudder_threshold : ℚ
  k_p : ℚ
  k_i : ℚ
  integrator : ℚ
  integrator_max : ℚ
  last_time_rudder_not_maxed : ℚ
  tacking_left : Option Bool
  tacking_right : Option Bool
  cone_angle : ℚ
  tacking_angle : ℚ
  cross_track_error : ℚ
deriving DecidableEq

/-- Source lines 26-59: `Navigator.__init__`.  The three feature toggles
are the constructor arguments; every other field gets the fixed value
assigned in the constructor body (`k_p = 0.6`, `k_i = 0.0`,
`integrator = 0`, `integrator_max = 200`, timeout 20, threshold 40,
`last_time_rudder_not_maxed = 0`, cone angle 15, tacking angle 45, both
tack flags `None`, no targets, zero cross-track error). -/
def initState (et ec ee : Bool) : NavState where
  enable_tacking := et
  enable_cross_track_minimization := ec
  enable_emergency_maneuver := ee
  target := none
  prev_target := none
  hardover_rudder_timeout := 20
  hardover_rudder_threshold := 40
  k_p := 3/5
  k_i := 0
  integrator := 0
  integrator_max := 200
  last_time_rudder_not_maxed := 0
  tacking_left := none
  tacking_right := none
  cone_angle := 15
  tacking_angle := 45
  cross_track_error := 0

/-- Source lines 82-85: the desired target heading; for a waypoint it is
`position.bearing_to(target)`, for a bare bearing it is the bearing
itself. -/
def target_heading0 : Target → TickInput → ℚ
  | .point _, i => i.bearing_to_target
  | .bearing b, _ => b

/-- Source lines 87-92: the cross-track stage.  When the feature is
enabled the stored `cross_track_error` is replaced by
`position.cross_track_distance(prev_target, target) * 1` if both targets
are waypoints and by 0 otherwise; when disabled the stored value is kept. -/
def cross_track_step (s : NavState) (i : TickInput) : ℚ :=
  if s.enable_cross_track_minimization then
    match s.prev_target, s.target with
    | some (.point _), some (.point _) => i.cross_track_distance * 1
    | _, _ => 0
  else s.cross_track_error

/-- Source lines 100-108: the first-entry commit of a tack side.  When
either flag is still `None`, choose the pair from `bearing_to_wind`
(right tack for values up to 180, left tack above); otherwise keep the
current pair.  The result is `(tacking_left, tacking_right)`. -/
def tack_flags_commit (tl tr : Option Bool) (btw : ℚ) : Option Bool × Option Bool :=
  if tr = none ∨ tl = none then
    if btw ≤ 180 then (some false, some true) else (some true, some false)
  else (tl, tr)

/-- Source lines 127-133: the inside-cone hold.  The two sequential `if`
statements of the source assign `wind - tacking_angle` for a left flag and
then `wind + tacking_angle` for a right flag, so a right flag wins;
equivalently, the right flag is tested first here.  The flags used are the
ones produced by the first-entry commit. -/
def tack_hold (tl tr : Option Bool) (tack w th btw : ℚ) :
    ℚ × Option Bool × Option Bool :=
  ((if (tack_flags_commit tl tr btw).2 = some true then bnorm (w + tack)
    else if (tack_flags_commit tl tr btw).1 = some true then bnorm (w - tack)
    else th),
   (tack_flags_commit tl tr btw).1, (tack_flags_commit tl tr btw).2)

/-- Source lines 94-136: the tacking stage.  Arguments are the fields the
stage reads: the feature toggle, the current target, the committed tack
flags, the cone and tacking angles, the wind direction `w`, the value of
`position.bearing_to(target)` `btt`, and the desired target heading `th`.
The result is the effective target heading handed to the PID stage
together with the new tack flags, or the exception raised: with a bare
bearing target the engaged branch evaluates
`position.bearing_to(self.target)` on line 98, which raises
(AttributeError), before any flag is mutated. -/
def tacking_step (enT : Bool) (tgt : Option Target) (tl tr : Option Bool)
    (cone tack w btt th : ℚ) : Except PyErr (ℚ × Option Bool × Option Bool) :=
  if (th < bnorm (w + tack) ∧ bnorm (w - tack) < th) ∧ enT = true then
    match tgt with
    | some (.point _) =>
      if cone ≤ mirror_angle (bnorm (btt - w)) then
        if bnorm (btt - w) ≤ 180 then .ok (bnorm (w + tack), some false, some true)
        else .ok (bnorm (w - tack), some true, some false)
      else
        .ok (tack_hold tl tr tack w th (bnorm (btt - w)))
    | _ => .error .attributeError
  else
    .ok (th, none, none)

/-- Source lines 167-204 after the offset: the five-band sail lookup
applied to the shifted relative wind direction, with strict ascending
thresholds 45, 68, 90, 113 below 180 and inclusive descending thresholds
315, 292, 269, 246 from 180 upwards. -/
def sail_table (rwd : ℚ) : ℚ :=
  if rwd < 180 then
    if rwd < 45 then 0
    else if rwd < 68 then 10
    else if rwd < 90 then 20
    else if rwd < 113 then 45
    else 90
  else
    if 315 ≤ rwd then 0
    else if 292 ≤ rwd then 10
    else if 269 ≤ rwd then 20
    else if 246 ≤ rwd then 45
    else 90

/-- Source line 173: `update_sail` first adds the 180-degree offset to
`wind.relative_direction` (a normalizing Bearing addition) and then
applies the threshold table. -/
def update_sail_angle (relative_direction : ℚ) : ℚ :=
  sail_table (bnorm (relative_direction + 180))

/-- The emitted actuator commands of one completed tick:
`set_rudder(rudder_angle)` and `set_sail(sail_angle)`. -/
structure Outputs where
  rudder : ℚ
  sail : ℚ
deriving DecidableEq

/-- Source line 140: `error = current_heading.delta(target_heading) +
cross_track_error`, where `s` already holds this tick's cross-track
value. -/
def tick_error (s : NavState) (i : TickInput) (th : ℚ) : ℚ :=
  delta i.heading th + s.cross_track_error

/-- Source lines 141-145: the incremented and clamped integrator. -/
def tick_integrator (s : NavState) (i : TickInput) (th : ℚ) : ℚ :=
  clampQ (s.integrator + tick_error s i th) s.integrator_max

/-- Source lines 147-152: `rudder_angle = -(k_p * error + k_i *
integrator)`, clamped to [-180, 180]. -/
def tick_rudder (s : NavState) (i : TickInput) (th : ℚ) : ℚ :=
  clamp180 (-(s.k_p * tick_error s i th + s.k_i * tick_integrator s i th))

/-- Source lines 138-165: the PID and emergency stages run after the
tacking stage fixed the effective target heading `th`.  The error adds
the stored cross-track term, the integrator is incremented and clamped,
the rudder is the negated PI sum clamped to [-180, 180]; with the
emergency feature on, an unsaturated rudder refreshes
`last_time_rudder_not_maxed` to the current time, while a rudder
saturated for longer than the timeout reaches the call `override_rudder()`
on line 160, which raises NameError (the name is only defined as a
method, not as a global). -/
def post_tack (s : NavState) (i : TickInput) (th : ℚ) : NavState × Except PyErr Outputs :=
  if s.enable_emergency_maneuver then
    if |tick_rudder s i th| < s.hardover_rudder_threshold then
      ({ s with
          integrator := tick_integrator s i th
          last_time_rudder_not_maxed := i.now },
        .ok ⟨tick_rudder s i th, update_sail_angle i.wind_relative_direction⟩)
    else if s.hardover_rudder_timeout < i.now - s.last_time_rudder_not_maxed then
      ({ s with integrator := tick_integrator s i th }, .error .nameError)
    else
      ({ s with integrator := tick_integrator s i th },
        .ok ⟨tick_rudder s i th, update_sail_angle i.wind_relative_direction⟩)
  else
    ({ s with integrator := tick_integrator s i th },
      .ok ⟨tick_rudder s i th, update_sail_angle i.wind_relative_direction⟩)

/-- Source lines 76-165: one call of `Navigator.update`.  The result is
the object state after the call together with either the emitted actuator
commands or the exception raised (with a `None` target the error
computation on line 140 applies Bearing arithmetic to `None` and raises;
under Python 2 comparison rules the tacking condition on line 95 is false
for `None`, so the tack flags are first cleared). -/
def update (s : NavState) (i : TickInput) : NavState × Except PyErr Outputs :=
  match s.target with
  | none =>
    ({ s with
        cross_track_error := cross_track_step s i
        tacking_left := none
        tacking_right := none }, .error .typeError)
  | some t =>
    match tacking_step s.enable_tacking s.target s.tacking_left s.tacking_right
        s.cone_angle s.tacking_angle i.wind_direction i.bearing_to_target
        (target_heading0 t i) with
    | .error e => ({ s with cross_track_error := cross_track_step s i }, .error e)
    | .ok (th, l, r) =>
      post_tack { s with
        cross_track_error := cross_track_step s i
        tacking_left := l
        tacking_right := r } i th

/-- The state transformer of one tick. -/
def updSt (s : NavState) (i : TickInput) : NavState := (update s i).1

/-- Source lines 71-74: `set_target` installs the new target and zeroes
the integrator. -/
def set_target (s : NavState) (value : Target) : NavState :=
  { s with
      target := some value
      integrator := 0 }

/-- Source lines 206-216: one iteration of `Navigator.run`: poll
`check_new_target`; on a new target save the current target as
`prev_target` and install the new one via `set_target`; then call
`update`. -/
def run_step (s : NavState) (newTarget : Option Target) (i : TickInput) :
    NavState × Except PyErr Outputs :=
  match newTarget with
  | none => update s i
  | some t => update (set_target { s with prev_target := s.target } t) i

/-- The rudder command emitted by a tick, if the tick completed. -/
def emittedRudder (r : NavState × Except PyErr Outputs) : Option ℚ :=
  match r.2 with
  | .ok out => some out.rudder
  | .error _ => none

/-- The tack-side flags form the enum {None, Left, Right}: either both
unset, or exactly one of them `True` and the other `False`.  This holds
for every state the controller can reach. -/
def FlagsOk (tl tr : Option Bool) : Prop :=
  (tl = none ∧ tr = none) ∨ (tl = some true ∧ tr = some false) ∨
    (tl = some false ∧ tr = some true)

/-- The integrator invariant of spec section 3: the clamp bound is the
constructor's 200 and the integrator stays inside it. -/
def IntegInv (s : NavState) : Prop :=
  s.integrator_max = 200 ∧ -200 ≤ s.integrator ∧ s.integrator ≤ 200

/-- A concrete controller state used as a witness input: all features
disabled and a bare bearing target of 90 degrees. -/
def wStateBearing90 : NavState :=
  { initState false false false with target := some (Target.bearing 90) }

/-- A concrete tick used as a witness input: heading 80, zero wind data,
clock at zero. -/
def wTickHeading80 : TickInput := ⟨80, 0, 0, 0, 0, 0⟩

-- arithmetic facts about the Python float modulus

lemma pymod_eq_fract (x m : ℚ) (hm : m ≠ 0) : pymod x m = m * Int.fract (x / m) := by
  unfold pymod Int.fract
  field_simp

lemma pymod_nonneg (x m : ℚ) (hm : 0 < m) : 0 ≤ pymod x m := by
  rw [pymod_eq_fract x m hm.ne.symm]
  exact mul_nonneg hm.le (Int.fract_nonneg _)

lemma pymod_lt (x m : ℚ) (hm : 0 < m) : pymod x m < m := by
  rw [pymod_eq_fract x m hm.ne.symm]
  calc m * Int.fract (x / m) < m * 1 := mul_lt_mul_of_pos_left (Int.fract_lt_one _) hm
    _ = m := mul_one m

lemma pymod_eq_sub (x m : ℚ) (k : ℤ) (hm : 0 < m) (h1 : m * k ≤ x)
    (h2 : x < m * (k + 1)) : pymod x m = x - m * k := by
  unfold pymod
  have hk : ⌊x / m⌋ = k := by
    rw [Int.floor_eq_iff]
    constructor
    · rw [le_div_iff₀ hm]
      linarith
    · rw [div_lt_iff₀ hm]
      linarith
  rw [hk]

lemma pymod_eq_self (x m : ℚ) (hm : 0 < m) (h1 : 0 ≤ x) (h2 : x < m) :
    pymod x m = x := by
  have h := pymod_eq_sub x m 0 hm (by push_cast; linarith) (by push_cast; linarith)
  simpa using h

lemma bnorm_eq_self (x : ℚ) (h1 : 0 ≤ x) (h2 : x < 360) : bnorm x = x :=
  pymod_eq_self x 360 (by norm_num) h1 h2

lemma bnorm_nonneg (x : ℚ) : 0 ≤ bnorm x := pymod_nonneg x 360 (by norm_num)

lemma bnorm_lt (x : ℚ) : bnorm x < 360 := pymod_lt x 360 (by norm_num)

lemma bnorm_eq_add (x : ℚ) (h1 : -360 ≤ x) (h2 : x < 0) : bnorm x = x + 360 := by
  unfold bnorm
  rw [pymod_eq_sub x 360 (-1) (by norm_num) (by push_cast; linarith)
    (by push_cast; linarith)]
  push_cast
  ring

lemma bnorm_eq_sub (x : ℚ) (h1 : 360 ≤ x) (h2 : x < 720) : bnorm x = x - 360 := by
  unfold bnorm
  rw [pymod_eq_sub x 360 1 (by norm_num) (by push_cast; linarith)
    (by push_cast; linarith)]
  push_cast
  ring

-- the signed shortest rotation

lemma delta_eq_near (a b : ℚ) (h1 : -180 ≤ b - a) (h2 : b - a < 180) :
    delta a b = b - a := by
  unfold delta
  rw [pymod_eq_sub (b - a + 180) 360 0 (by norm_num) (by push_cast; linarith)
    (by push_cast; linarith)]
  push_cast
  ring

lemma delta_eq_wrap_pos (a b : ℚ) (h1 : 180 ≤ b - a) (h2 : b - a < 540) :
    delta a b = b - a - 360 := by
  unfold delta
  rw [pymod_eq_sub (b - a + 180) 360 1 (by norm_num) (by push_cast; linarith)
    (by push_cast; linarith)]
  push_cast
  ring

lemma delta_eq_wrap_neg (a b : ℚ) (h1 : -540 ≤ b - a) (h2 : b - a < -180) :
    delta a b = b - a + 360 := by
  unfold delta
  rw [pymod_eq_sub (b - a + 180) 360 (-1) (by norm_num) (by push_cast; linarith)
    (by push_cast; linarith)]
  push_cast
  ring

lemma delta_lb (a b : ℚ) : -180 ≤ delta a b := by
  unfold delta
  have h := pymod_nonneg (b - a + 180) 360 (by norm_num)
  linarith

lemma delta_ub (a b : ℚ) : delta a b < 180 := by
  unfold delta
  have h := pymod_lt (b - a + 180) 360 (by norm_num)
  linarith

-- the clamps

lemma clampQ_bounds (x m : ℚ) (hm : 0 ≤ m) : -m ≤ clampQ x m ∧ clampQ x m ≤ m := by
  unfold clampQ
  split_ifs <;> constructor <;> linarith

lemma clamp180_nonpos (x : ℚ) (hx : x ≤ 0) : clamp180 x ≤ 0 := by
  unfold clamp180
  split_ifs <;> linarith

-- circular distance of a heading outside the tacking entry interval

lemma abs_delta_outside (w th : ℚ) (hw1 : 45 ≤ w) (hw2 : w < 315)
    (hth1 : 0 ≤ th) (hth2 : th < 360)
    (hout : ¬(th < w + 45 ∧ w - 45 < th)) : 45 ≤ |delta w th| := by
  rw [not_and_or, not_lt, not_lt] at hout
  rcases hout with hge | hle
  · rcases lt_or_le (th - w) 180 with hlt | hge2
    · rw [delta_eq_near w th (by linarith) hlt, le_abs]
      left
      linarith
    · rw [delta_eq_wrap_pos w th hge2 (by linarith), le_abs]
      right
      linarith
  · rcases lt_or_le (th - w) (-180 : ℚ) with hlt2 | hge2
    · rw [delta_eq_wrap_neg w th (by linarith) hlt2, le_abs]
      left
      linarith
    · rw [delta_eq_near w th hge2 (by linarith), le_abs]
      right
      linarith

-- distance of the two tack edge headings from the wind

lemma abs_delta_edge_right (w : ℚ) : |delta w (w + 45)| = 45 := by
  have h : delta w (w + 45) = 45 := by
    have he := delta_eq_near w (w + 45) (by linarith) (by linarith)
    linarith
  rw [h]
  norm_num

lemma abs_delta_edge_left (w : ℚ) : |delta w (w - 45)| = 45 := by
  have h : delta w (w - 45) = -45 := by
    have he := delta_eq_near w (w - 45) (by linarith) (by linarith)
    linarith
  rw [h]
  norm_num

-- structural lemmas about one tick

lemma post_tack_integrator (s : NavState) (i : TickInput) (th : ℚ) :
    (post_tack s i th).1.integrator = tick_integrator s i th ∧
    (post_tack s i th).1.integrator_max = s.integrator_max := by
  unfold post_tack
  split_ifs <;> exact ⟨rfl, rfl⟩

lemma post_tack_emitted (s : NavState) (i : TickInput) (th : ℚ) (rv : ℚ)
    (h : emittedRudder (post_tack s i th) = some rv) : rv = tick_rudder s i th := by
  unfold post_tack emittedRudder at h
  split_ifs at h <;> simp at h <;> exact h.symm

lemma update_eq_post_tack (s : NavState) (i : TickInput) (t : Target) (th : ℚ)
    (l r : Option Bool) (ht : s.target = some t)
    (hts : tacking_step s.enable_tacking (some t) s.tacking_left s.tacking_right
      s.cone_angle s.tacking_angle i.wind_direction i.bearing_to_target
      (target_heading0 t i) = .ok (th, l, r)) :
    update s i = post_tack { s with
      cross_track_error := cross_track_step s i
      tacking_left := l
      tacking_right := r } i th := by
  simp only [update, ht, hts]

lemma tick_rudder_ki_zero (s : NavState) (i : TickInput) (th : ℚ)
    (hki : s.k_i = 0) :
    tick_rudder s i th = clamp180 (-(s.k_p * tick_error s i th)) := by
  unfold tick_rudder
  rw [hki, zero_mul, add_zero]

lemma integInv_updSt (s : NavState) (i : TickInput) (h : IntegInv s) :
    IntegInv (updSt s i) := by
  obtain ⟨hm, h1, h2⟩ := h
  unfold updSt
  cases ht : s.target with
  | none =>
    simp only [update, ht]
    exact ⟨hm, h1, h2⟩
  | some t =>
    cases hts : tacking_step s.enable_tacking (some t) s.tacking_left s.tacking_right
        s.cone_angle s.tacking_angle i.wind_direction i.bearing_to_target
        (target_heading0 t i) with
    | error e =>
      simp only [update, ht, hts]
      exact ⟨hm, h1, h2⟩
    | ok thr =>
      obtain ⟨th, lf, rf⟩ := thr
      rw [update_eq_post_tack s i t th lf rf ht hts]
      obtain ⟨hpi, hpm⟩ := post_tack_integrator { s with
        cross_track_error := cross_track_step s i
        tacking_left := lf
        tacking_right := rf } i th
      refine ⟨?_, ?_, ?_⟩
      · rw [hpm]
        exact hm
      · rw [hpi]
        have hb := clampQ_bounds (s.integrator + tick_error { s with
          cross_track_error := cross_track_step s i
          tacking_left := lf
          tacking_right := rf } i th) 200 (by norm_num)
        calc (-200 : ℚ) ≤ _ := hb.1
          _ = _ := by rw [tick_integrator, hm]
      · rw [hpi]
        have hb := clampQ_bounds (s.integrator + tick_error { s with
          cross_track_error := cross_track_step s i
          tacking_left := lf
          tacking_right := rf } i th) 200 (by norm_num)
        calc tick_integrator _ i th = _ := by rw [tick_integrator, hm]
          _ ≤ 200 := hb.2

lemma integInv_foldl (l : List TickInput) (s : NavState) (h : IntegInv s) :
    IntegInv (List.foldl updSt s l) := by
  induction l generalizing s with
  | nil => exact h
  | cons i rest ih => exact ih (updSt s i) (integInv_updSt s i h)

-- claim C8: mirror_angle

/-- C8 counterexample: the claim fails on the code at concrete inputs.
The source returns `mirror_angle 180 = 180`, not 0; and it does not
normalize modulo 360 first: `mirror_angle (-50) = -50` while
`bnorm (-50) = 310` and `mirror_angle 310 = 50`, so
`mirror_angle x = mirror_angle (x mod 360)` fails at `x = -50`. -/
theorem c8_mirror_counterexample :
    mirror_angle 180 = 180 ∧ (180 : ℚ) ≠ 0 ∧
    mirror_angle (-50) = -50 ∧ bnorm (-50) = 310 ∧
    mirror_angle (bnorm (-50)) = 50 ∧
    mirror_angle (-50) ≠ mirror_angle (bnorm (-50)) := by
  norm_num [mirror_angle, bnorm, pymod]

/-- C8 (amended): `mirror_angle x` lies in [0, 180] for every x in
[0, 360), with `mirror_angle 0 = 0`, `mirror_angle 180 = 180` (not 0) and
`mirror_angle 270 = 90`; inputs are not first normalized modulo 360:
every input up to 180, negative inputs included, is returned unchanged. -/
theorem c8_mirror_amended :
    (∀ x : ℚ, 0 ≤ x → x < 360 → 0 ≤ mirror_angle x ∧ mirror_angle x ≤ 180) ∧
    mirror_angle 0 = 0 ∧ mirror_angle 180 = 180 ∧ mirror_angle 270 = 90 ∧
    (∀ x : ℚ, x ≤ 180 → mirror_angle x = x) := by
  refine ⟨?_, by norm_num [mirror_angle], by norm_num [mirror_angle],
    by norm_num [mirror_angle, pymod], ?_⟩
  · intro x h1 h2
    unfold mirror_angle
    split_ifs with h
    · have hp : pymod x 180 = x - 180 * (1 : ℤ) :=
        pymod_eq_sub x 180 1 (by norm_num) (by push_cast; linarith)
          (by push_cast; linarith)
    
      rw [hp]
      push_cast
      constructor <;> linarith
    · exact ⟨h1, by linarith⟩
  · intro x hx
    unfold mirror_angle
    rw [if_neg (not_lt.mpr hx)]

/-- C8 witness: the amended theorem applied at the concrete inputs 190
and 50. -/
theorem c8_mirror_witness :
    ((0 : ℚ) ≤ 190 ∧ (190 : ℚ) < 360 ∧
      0 ≤ mirror_angle 190 ∧ mirror_angle 190 ≤ 180) ∧
    ((50 : ℚ) ≤ 180 ∧ mirror_angle 50 = 50) :=
  ⟨⟨by norm_num, by norm_num, (c8_mirror_amended.1 190 (by norm_num) (by norm_num)).1,
    (c8_mirror_amended.1 190 (by norm_num) (by norm_num)).2⟩,
   ⟨by norm_num, c8_mirror_amended.2.2.2.2 50 (by norm_num)⟩⟩

-- claim C7: the sail trim table

/-- C7 counterexample: the claim fails on the code at the shifted
relative wind direction 90: the table yields the broad-reach angle 45,
not the beam-reach angle 20; and the table is not symmetric about 180,
since 91 and its mirror 269 map to different angles. -/
theorem c7_sail_counterexample :
    sail_table 90 = 45 ∧ (45 : ℚ) ≠ 20 ∧
    sail_table 91 = 45 ∧ sail_table (360 - 91) = 20 ∧
    sail_table 91 ≠ sail_table (360 - 91) := by
  norm_num [sail_table]

/-- C7 (amended): the table maps every input to exactly one of the five
discrete sail angles 0, 10, 20, 45, 90; the shifted relative wind
direction 0 yields 0, 90 yields 45 (broad reach, not 20) and 250 yields
45; the bands are delimited below 180 by the strict ascending thresholds
45, 68, 90, 113 and at or above 180 by the inclusive descending
thresholds 315, 292, 269, 246, which are not exact mirrors of the
ascending ones, so the table is not symmetric about 180. -/
theorem c7_sail_table_amended :
    (∀ x : ℚ, sail_table x = 0 ∨ sail_table x = 10 ∨ sail_table x = 20 ∨
      sail_table x = 45 ∨ sail_table x = 90) ∧
    sail_table 0 = 0 ∧ sail_table 90 = 45 ∧ sail_table 250 = 45 ∧
    (∀ x : ℚ, 0 ≤ x → x < 45 → sail_table x = 0) ∧
    (∀ x : ℚ, 45 ≤ x → x < 68 → sail_table x = 10) ∧
    (∀ x : ℚ, 68 ≤ x → x < 90 → sail_table x = 20) ∧
    (∀ x : ℚ, 90 ≤ x → x < 113 → sail_table x = 45) ∧
    (∀ x : ℚ, 113 ≤ x → x < 246 → sail_table x = 90) ∧
    (∀ x : ℚ, 246 ≤ x → x < 269 → sail_table x = 45) ∧
    (∀ x : ℚ, 269 ≤ x → x < 292 → sail_table x = 20) ∧
    (∀ x : ℚ, 292 ≤ x → x < 315 → sail_table x = 10) ∧
    (∀ x : ℚ, 315 ≤ x → sail_table x = 0) := by
  refine ⟨?_, by norm_num [sail_table], by norm_num [sail_table],
    by norm_num [sail_table], ?_, ?_, ?_, ?_, ?_, ?_, ?_, ?_, ?_⟩
  · intro x
    unfold sail_table
    split_ifs <;> simp
  all_goals
    intro x h1
    first
      | (intro h2
         unfold sail_table
         split_ifs <;> first | rfl | linarith)
      | (unfold sail_table
         split_ifs <;> first | rfl | linarith)

/-- C7 witness: the amended theorem applied at the concrete band inputs
30 and 260. -/
theorem c7_sail_witness :
    ((0 : ℚ) ≤ 30 ∧ (30 : ℚ) < 45 ∧ sail_table 30 = 0) ∧
    ((246 : ℚ) ≤ 260 ∧ (260 : ℚ) < 269 ∧ sail_table 260 = 45) :=
  ⟨⟨by norm_num, by norm_num,
    c7_sail_table_amended.2.2.2.2.1 30 (by norm_num) (by norm_num)⟩,
   ⟨by norm_num, by norm_num,
    c7_sail_table_amended.2.2.2.2.2.2.2.2.2.1 260 (by norm_num) (by norm_num)⟩⟩

-- claim C9: target installation resets the integrator

/-- C9: `set_target` zeroes the integrator and installs the target for
every prior state, and a run-loop iteration that receives a new target
saves the current target as `prev_target` and runs `update` on the state
with the new target installed and the integrator reset to exactly 0. -/
theorem c9_set_target_resets (s : NavState) (t : Target) (i : TickInput) :
    (set_target s t).integrator = 0 ∧ (set_target s t).target = some t ∧
    (set_target s t).prev_target = s.prev_target ∧
    run_step s (some t) i = update { s with
      prev_target := s.target
      target := some t
      integrator := 0 } i ∧
    (set_target { s with prev_target := s.target } t).integrator = 0 ∧
    (set_target { s with prev_target := s.target } t).prev_target = s.target :=
  ⟨rfl, rfl, rfl, rfl, rfl, rfl⟩

-- claim C4: the integrator invariant of the tick loop

/-- C4: starting from the constructor state (integrator 0), after any
sequence of `update` calls with arbitrary tick inputs the integrator lies
in [-integrator_max, integrator_max] = [-200, 200].  Quantifying over
every input list covers every prefix, hence the state after every call. -/
theorem c4_integrator_invariant (et ec ee : Bool) (l : List TickInput) :
    -200 ≤ (List.foldl updSt (initState et ec ee) l).integrator ∧
    (List.foldl updSt (initState et ec ee) l).integrator ≤ 200 :=
  (integInv_foldl l (initState et ec ee) ⟨rfl, by norm_num [initState], by norm_num [initState]⟩).2

lemma emittedRudder_post_tack_congr (s1 s2 : NavState) (i : TickInput) (th : ℚ)
    (hE : s1.enable_emergency_maneuver = s2.enable_emergency_maneuver)
    (hr : tick_rudder s1 i th = tick_rudder s2 i th)
    (hth : s1.hardover_rudder_threshold = s2.hardover_rudder_threshold)
    (hto : s1.hardover_rudder_timeout = s2.hardover_rudder_timeout)
    (hlast : s1.last_time_rudder_not_maxed = s2.last_time_rudder_not_maxed) :
    emittedRudder (post_tack s1 i th) = emittedRudder (post_tack s2 i th) := by
  unfold post_tack emittedRudder
  rw [hE, hr, hth, hto, hlast]
  split_ifs <;> rfl

-- claim C3: the PID equations of one tick

/-- C3: for every tick whose tacking stage completes with effective
heading `th`, the heading error is `delta(current_heading, th)` plus the
tick's cross-track term, the new integrator is the incremented error
clamped to [-integrator_max, integrator_max], every emitted rudder
command equals `-(k_p * error + k_i * integrator)` clamped to
[-180, 180], and — with the program's gains `k_i = 0`, `k_p ≥ 0` — a
positive error yields a non-positive rudder command. -/
theorem c3_pid_tick (s : NavState) (i : TickInput) (t : Target) (th : ℚ)
    (l r : Option Bool) (ht : s.target = some t)
    (hts : tacking_step s.enable_tacking (some t) s.tacking_left s.tacking_right
      s.cone_angle s.tacking_angle i.wind_direction i.bearing_to_target
      (target_heading0 t i) = .ok (th, l, r)) :
    (update s i).1.integrator =
      clampQ (s.integrator + (delta i.heading th + cross_track_step s i))
        s.integrator_max ∧
    (∀ rv, emittedRudder (update s i) = some rv →
      rv = clamp180 (-(s.k_p * (delta i.heading th + cross_track_step s i) +
        s.k_i * clampQ (s.integrator + (delta i.heading th + cross_track_step s i))
          s.integrator_max))) ∧
    (s.k_i = 0 → 0 ≤ s.k_p → 0 < delta i.heading th + cross_track_step s i →
      ∀ rv, emittedRudder (update s i) = some rv → rv ≤ 0) := by
  rw [update_eq_post_tack s i t th l r ht hts]
  refine ⟨?_, ?_, ?_⟩
  · rw [(post_tack_integrator _ i th).1]
    rfl
  · intro rv hrv
    exact post_tack_emitted _ i th rv hrv
  · intro hki hkp herr rv hrv
    rw [post_tack_emitted _ i th rv hrv]
    rw [tick_rudder_ki_zero { s with
      cross_track_error := cross_track_step s i
      tacking_left := l
      tacking_right := r } i th hki]
    apply clamp180_nonpos
    have hnn : (0 : ℚ) ≤ s.k_p * (delta i.heading th + cross_track_step s i) :=
      mul_nonneg hkp (le_of_lt herr)
    exact neg_nonpos.mpr hnn

/-- C3 witness: the PID-equation theorem applied at the concrete state
with a bearing-90 target and a tick with heading 80 (error 10, emitted
rudder -6). -/
theorem c3_pid_witness :
    wStateBearing90.target = some (Target.bearing 90) ∧
    tacking_step wStateBearing90.enable_tacking (some (Target.bearing 90))
      wStateBearing90.tacking_left wStateBearing90.tacking_right
      wStateBearing90.cone_angle wStateBearing90.tacking_angle
      wTickHeading80.wind_direction wTickHeading80.bearing_to_target
      (target_heading0 (Target.bearing 90) wTickHeading80) =
      .ok (90, none, none) ∧
    ((update wStateBearing90 wTickHeading80).1.integrator =
      clampQ (wStateBearing90.integrator + (delta wTickHeading80.heading 90 +
        cross_track_step wStateBearing90 wTickHeading80))
        wStateBearing90.integrator_max ∧
    (∀ rv, emittedRudder (update wStateBearing90 wTickHeading80) = some rv →
      rv = clamp180 (-(wStateBearing90.k_p * (delta wTickHeading80.heading 90 +
        cross_track_step wStateBearing90 wTickHeading80) +
        wStateBearing90.k_i * clampQ (wStateBearing90.integrator +
          (delta wTickHeading80.heading 90 +
            cross_track_step wStateBearing90 wTickHeading80))
          wStateBearing90.integrator_max))) ∧
    (wStateBearing90.k_i = 0 → 0 ≤ wStateBearing90.k_p →
      0 < delta wTickHeading80.heading 90 +
        cross_track_step wStateBearing90 wTickHeading80 →
      ∀ rv, emittedRudder (update wStateBearing90 wTickHeading80) = some rv →
        rv ≤ 0)) :=
  ⟨rfl,
   by norm_num [wStateBearing90, wTickHeading80, initState, tacking_step,
     target_heading0, bnorm, pymod],
   c3_pid_tick wStateBearing90 wTickHeading80 (Target.bearing 90) 90 none none rfl
     (by norm_num [wStateBearing90, wTickHeading80, initState, tacking_step,
       target_heading0, bnorm, pymod])⟩

lemma cross_track_step_set_integrator (s : NavState) (i : TickInput) (q : ℚ) :
    cross_track_step { s with integrator := q } i = cross_track_step s i := rfl

lemma tick_rudder_congr_ki_zero (s1 s2 : NavState) (i : TickInput) (th : ℚ)
    (h1 : s1.k_i = 0) (h2 : s2.k_i = 0) (hkp : s1.k_p = s2.k_p)
    (hce : s1.cross_track_error = s2.cross_track_error) :
    tick_rudder s1 i th = tick_rudder s2 i th := by
  rw [tick_rudder_ki_zero s1 i th h1, tick_rudder_ki_zero s2 i th h2, hkp]
  unfold tick_error
  rw [hce]

-- claim C10: under the constructor gains the integrator is inert

/-- C10: with the constructor gains `k_p = 3/5` and `k_i = 0`, every
rudder command emitted by a tick equals `-(0.6 * error)` clamped to
[-180, 180], where the error does not involve the integrator; and
replacing the integrator by an arbitrary value leaves the emitted rudder
of the tick unchanged. -/
theorem c10_default_gains (s : NavState) (i : TickInput) (t : Target) (th : ℚ)
    (l r : Option Bool) (ht : s.target = some t)
    (hkp : s.k_p = 3/5) (hki : s.k_i = 0)
    (hts : tacking_step s.enable_tacking (some t) s.tacking_left s.tacking_right
      s.cone_angle s.tacking_angle i.wind_direction i.bearing_to_target
      (target_heading0 t i) = .ok (th, l, r)) :
    (∀ rv, emittedRudder (update s i) = some rv →
      rv = clamp180 (-(3/5 * (delta i.heading th + cross_track_step s i)))) ∧
    (∀ q : ℚ, emittedRudder (update { s with integrator := q } i) =
      emittedRudder (update s i)) := by
  constructor
  · intro rv hrv
    rw [update_eq_post_tack s i t th l r ht hts] at hrv
    rw [post_tack_emitted _ i th rv hrv]
    rw [tick_rudder_ki_zero { s with
      cross_track_error := cross_track_step s i
      tacking_left := l
      tacking_right := r } i th hki]
    rw [show ({ s with
      cross_track_error := cross_track_step s i
      tacking_left := l
      tacking_right := r } : NavState).k_p = (3 : ℚ)/5 from hkp]
    rfl
  · intro q
    have htq : ({ s with integrator := q } : NavState).target = some t := ht
    have htsq : tacking_step ({ s with integrator := q } : NavState).enable_tacking
        (some t) ({ s with integrator := q } : NavState).tacking_left
        ({ s with integrator := q } : NavState).tacking_right
        ({ s with integrator := q } : NavState).cone_angle
        ({ s with integrator := q } : NavState).tacking_angle i.wind_direction
        i.bearing_to_target (target_heading0 t i) = .ok (th, l, r) := hts
    rw [update_eq_post_tack { s with integrator := q } i t th l r htq htsq]
    rw [update_eq_post_tack s i t th l r ht hts]
    apply emittedRudder_post_tack_congr
    · rfl
    · apply tick_rudder_congr_ki_zero
      · exact hki
      · exact hki
      · rfl
      · exact cross_track_step_set_integrator s i q
    · rfl
    · rfl
    · rfl

/-- C10 witness: the default-gain theorem applied at the concrete state
with a bearing-90 target and a tick with heading 80. -/
theorem c10_default_witness :
    wStateBearing90.target = some (Target.bearing 90) ∧
    wStateBearing90.k_p = 3/5 ∧ wStateBearing90.k_i = 0 ∧
    tacking_step wStateBearing90.enable_tacking (some (Target.bearing 90))
      wStateBearing90.tacking_left wStateBearing90.tacking_right
      wStateBearing90.cone_angle wStateBearing90.tacking_angle
      wTickHeading80.wind_direction wTickHeading80.bearing_to_target
      (target_heading0 (Target.bearing 90) wTickHeading80) =
      .ok (90, none, none) ∧
    ((∀ rv, emittedRudder (update wStateBearing90 wTickHeading80) = some rv →
      rv = clamp180 (-(3/5 * (delta wTickHeading80.heading 90 +
        cross_track_step wStateBearing90 wTickHeading80)))) ∧
     (∀ q : ℚ,
        emittedRudder (update { wStateBearing90 with integrator := q } wTickHeading80) =
        emittedRudder (update wStateBearing90 wTickHeading80))) :=
  ⟨rfl, rfl, rfl,
   by norm_num [wStateBearing90, wTickHeading80, initState, tacking_step,
     target_heading0, bnorm, pymod],
   c10_default_gains wStateBearing90 wTickHeading80 (Target.bearing 90) 90 none none
     rfl rfl rfl
     (by norm_num [wStateBearing90, wTickHeading80, initState, tacking_step,
       target_heading0, bnorm, pymod])⟩

-- claim C1: the no-go-cone guarantee

/-- C1 counterexample: with tacking enabled, wind direction 0 and a bare
bearing target of 5 degrees — well inside the 15-degree no-go cone — the
tacking stage does not engage, because the entry test compares against
the normalized bearings `wind + 45 = 45` and `wind - 45 = 315` and no
normalized heading is below 45 and above 315 at once; the raw heading 5,
only 5 degrees from the wind, is handed to the PID stage and the tick
emits the rudder command -3 computed from it. -/
theorem c1_no_go_counterexample :
    tacking_step true (some (Target.bearing 5)) none none 15 45 0 0 5 =
      .ok (5, none, none) ∧
    |delta 0 5| = 5 ∧ ¬(15 ≤ |delta 0 5|) ∧
    emittedRudder (update
      { initState true false false with target := some (Target.bearing 5) }
      ⟨0, 0, 0, 0, 0, 0⟩) = some (-3) := by
  refine ⟨?_, ?_, ?_, ?_⟩ <;>
    norm_num [tacking_step, bnorm, pymod, delta, update, initState,
      cross_track_step, target_heading0, post_tack, tick_error, tick_integrator,
      tick_rudder, clampQ, clamp180, emittedRudder, update_sail_angle, sail_table]

/-- C1 (amended): whenever tacking is enabled and the entry interval does
not wrap the 0/360 seam — the wind direction lies in
[tacking_angle, 360 - tacking_angle) = [45, 315) — every heading the
tacking stage hands to the PID stage is at least cone_angle = 15 degrees
from the wind direction, for every normalized desired heading, every
target kind, and every reachable pair of tack flags; ticks on which the
tacking stage raises hand no heading to the PID stage at all. -/
theorem c1_no_go_amended (tgt : Option Target) (tl tr : Option Bool)
    (w btt th h : ℚ) (l r : Option Bool)
    (hflags : FlagsOk tl tr)
    (hw1 : 45 ≤ w) (hw2 : w < 315)
    (hth1 : 0 ≤ th) (hth2 : th < 360)
    (hok : tacking_step true tgt tl tr 15 45 w btt th = .ok (h, l, r)) :
    15 ≤ |delta w h| := by
  have hb1 : bnorm (w + 45) = w + 45 := bnorm_eq_self _ (by linarith) (by linarith)
  have hb2 : bnorm (w - 45) = w - 45 := bnorm_eq_self _ (by linarith) (by linarith)
  have hedge_r : (15 : ℚ) ≤ |delta w (w + 45)| := by
    rw [abs_delta_edge_right]
    norm_num
  have hedge_l : (15 : ℚ) ≤ |delta w (w - 45)| := by
    rw [abs_delta_edge_left]
    norm_num
  rcases tgt with _ | t
  · -- target is None: the engaged branch raises, so only pass-through remains
    simp only [tacking_step] at hok
    rw [hb1, hb2] at hok
    split_ifs at hok with hcond
    simp only [Except.ok.injEq, Prod.mk.injEq] at hok
    obtain ⟨hh, _, _⟩ := hok
    subst hh
    have hout : ¬(th < w + 45 ∧ w - 45 < th) := fun hc => hcond ⟨hc, trivial⟩
    have hd := abs_delta_outside w th hw1 hw2 hth1 hth2 hout
    linarith
  · rcases t with b | p
    · -- bare bearing target: the engaged branch raises AttributeError
      simp only [tacking_step] at hok
      rw [hb1, hb2] at hok
      split_ifs at hok with hcond
      simp only [Except.ok.injEq, Prod.mk.injEq] at hok
      obtain ⟨hh, _, _⟩ := hok
      subst hh
      have hout : ¬(th < w + 45 ∧ w - 45 < th) := fun hc => hcond ⟨hc, trivial⟩
      have hd := abs_delta_outside w th hw1 hw2 hth1 hth2 hout
      linarith
    · -- waypoint target
      simp only [tacking_step] at hok
      rw [hb1, hb2] at hok
      split_ifs at hok with hcond hcone hbtw
      · -- engaged, outside cone, right tack
        simp only [Except.ok.injEq, Prod.mk.injEq] at hok
        obtain ⟨hh, _, _⟩ := hok
        subst hh
        exact hedge_r
      · -- engaged, outside cone, left tack
        simp only [Except.ok.injEq, Prod.mk.injEq] at hok
        obtain ⟨hh, _, _⟩ := hok
        subst hh
        exact hedge_l
      · -- engaged, inside cone: hold the committed side
        rcases hflags with ⟨h1, h2⟩ | ⟨h1, h2⟩ | ⟨h1, h2⟩
        · subst h1
          subst h2
          by_cases hbw : bnorm (btt - w) ≤ 180
          · simp [tack_hold, tack_flags_commit, hbw] at hok
            obtain ⟨hh, _, _⟩ := hok
            subst hh
            rw [hb1]
            exact hedge_r
          · simp [tack_hold, tack_flags_commit, hbw] at hok
            obtain ⟨hh, _, _⟩ := hok
            subst hh
            rw [hb2]
            exact hedge_l
        · subst h1
          subst h2
          simp [tack_hold, tack_flags_commit] at hok
          obtain ⟨hh, _, _⟩ := hok
          subst hh
          rw [hb2]
          exact hedge_l
        · subst h1
          subst h2
          simp [tack_hold, tack_flags_commit] at hok
          obtain ⟨hh, _, _⟩ := hok
          subst hh
          rw [hb1]
          exact hedge_r
      · -- not engaged: raw heading passes through
        simp only [Except.ok.injEq, Prod.mk.injEq] at hok
        obtain ⟨hh, _, _⟩ := hok
        subst hh
        have hout : ¬(th < w + 45 ∧ w - 45 < th) := fun hc => hcond ⟨hc, trivial⟩
        have hd := abs_delta_outside w th hw1 hw2 hth1 hth2 hout
        linarith

/-- C1 witness: the amended no-go theorem applied at wind 100, waypoint
target with bearing-to-target 120, first entry: the tacking stage outputs
the right-tack edge heading 145, which is 45 degrees from the wind. -/
theorem c1_no_go_witness :
    FlagsOk none none ∧ (45 : ℚ) ≤ 100 ∧ (100 : ℚ) < 315 ∧
    (0 : ℚ) ≤ 120 ∧ (120 : ℚ) < 360 ∧
    tacking_step true (some (Target.point ⟨0, 0⟩)) none none 15 45 100 120 120 =
      .ok (145, some false, some true) ∧
    (15 : ℚ) ≤ |delta 100 145| :=
  ⟨Or.inl ⟨rfl, rfl⟩, by norm_num, by norm_num, by norm_num, by norm_num,
   by norm_num [tacking_step, tack_hold, tack_flags_commit, bnorm, pymod,
     mirror_angle],
   c1_no_go_amended (some (Target.point ⟨0, 0⟩)) none none 100 120 120 145
     (some false) (some true) (Or.inl ⟨rfl, rfl⟩) (by norm_num) (by norm_num)
     (by norm_num) (by norm_num)
     (by norm_num [tacking_step, tack_hold, tack_flags_commit, bnorm, pymod,
       mirror_angle])⟩

-- claim C2: the tacking engagement condition

/-- C2 counterexample: the engagement test uses tacking_angle = 45, not
cone_angle = 15, and fails entirely when the interval wraps 0/360.  At
wind 180 with a waypoint target bearing 150 — thirty degrees from the
wind, outside the 15-degree cone — the machine engages, commits a left
tack and replaces the heading by 135; at wind 0 with target bearing 5 —
five degrees from the wind, inside the cone — it does not engage (the
spec's own concrete test), hands 5 through unchanged and commits no
side. -/
theorem c2_engagement_counterexample :
    tacking_step true (some (Target.point ⟨0, 0⟩)) none none 15 45 180 150 150 =
      .ok (135, some true, some false) ∧
    |delta 180 150| = 30 ∧ ¬(|delta 180 150| ≤ 15) ∧
    tacking_step true (some (Target.bearing 5)) none none 15 45 0 0 5 =
      .ok (5, none, none) ∧
    |delta 0 5| = 5 ∧ |delta 0 5| < 15 := by
  refine ⟨?_, ?_, ?_, ?_, ?_, ?_⟩ <;>
    norm_num [tacking_step, tack_hold, tack_flags_commit, bnorm, pymod,
      mirror_angle, delta]

/-- C2 (amended): the machine engages on a tick if and only if tacking is
enabled and the desired heading lies strictly inside the interval from
`wind - tacking_angle` to `wind + tacking_angle` formed on normalized
bearings — not within cone_angle of the wind; when that interval wraps
the 0/360 seam (wind below 45 or at or above 315) the test is
unsatisfiable and the machine never engages.  When it does not engage the
committed side is cleared and the raw heading passes through unchanged.
On a first entry with a waypoint target it commits TackRight and outputs
`wind + 45` when `bearing_to_wind ≤ 180`, and commits TackLeft and
outputs `wind - 45` otherwise. -/
theorem c2_engagement_amended (p : GeoPoint) (tl tr : Option Bool)
    (w btt th : ℚ) (hw1 : 45 ≤ w) (hw2 : w < 315)
    (hth1 : 0 ≤ th) (hth2 : th < 360) :
    ((th < bnorm (w + 45) ∧ bnorm (w - 45) < th) ↔
      (w - 45 < th ∧ th < w + 45)) ∧
    (∀ w' : ℚ, 0 ≤ w' → w' < 360 → w' < 45 ∨ 315 ≤ w' →
      ¬(th < bnorm (w' + 45) ∧ bnorm (w' - 45) < th)) ∧
    (¬(w - 45 < th ∧ th < w + 45) →
      ∀ tgt : Option Target,
        tacking_step true tgt tl tr 15 45 w btt th = .ok (th, none, none)) ∧
    (w - 45 < th → th < w + 45 → bnorm (btt - w) ≤ 180 →
      tacking_step true (some (.point p)) none none 15 45 w btt th =
        .ok (w + 45, some false, some true)) ∧
    (w - 45 < th → th < w + 45 → 180 < bnorm (btt - w) →
      tacking_step true (some (.point p)) none none 15 45 w btt th =
        .ok (w - 45, some true, some false)) := by
  have hb1 : bnorm (w + 45) = w + 45 := bnorm_eq_self _ (by linarith) (by linarith)
  have hb2 : bnorm (w - 45) = w - 45 := bnorm_eq_self _ (by linarith) (by linarith)
  refine ⟨?_, ?_, ?_, ?_, ?_⟩
  · rw [hb1, hb2]
    constructor
    · rintro ⟨a, b⟩
      exact ⟨b, a⟩
    · rintro ⟨a, b⟩
      exact ⟨b, a⟩
  · intro w' h0 h360 hcase
    rcases hcase with hlt | hge
    · rw [bnorm_eq_self (w' + 45) (by linarith) (by linarith),
          bnorm_eq_add (w' - 45) (by linarith) (by linarith)]
      rintro ⟨ha, hb⟩
      linarith
    · rw [bnorm_eq_sub (w' + 45) (by linarith) (by linarith),
          bnorm_eq_self (w' - 45) (by linarith) (by linarith)]
      rintro ⟨ha, hb⟩
      linarith
  · intro hnot tgt
    unfold tacking_step
    rw [hb1, hb2]
    rw [if_neg]
    rintro ⟨⟨a, b⟩, -⟩
    exact hnot ⟨b, a⟩
  · intro ha hbound hble
    by_cases hcone : (15 : ℚ) ≤ mirror_angle (bnorm (btt - w))
    · simp [tacking_step, hb1, hb2, ha, hbound, hble, hcone]
    · simp [tacking_step, tack_hold, tack_flags_commit, hb1, hb2, ha, hbound,
        hble, hcone]
  · intro ha hbound hbgt
    by_cases hcone : (15 : ℚ) ≤ mirror_angle (bnorm (btt - w))
    · simp [tacking_step, hb1, hb2, ha, hbound, not_le.mpr hbgt, hcone]
    · simp [tacking_step, tack_hold, tack_flags_commit, hb1, hb2, ha, hbound,
        not_le.mpr hbgt, hcone]

/-- C2 witness: the amended engagement theorem applied at wind 100,
desired heading 120, bearing-to-target 120, first entry. -/
theorem c2_engagement_witness :
    (45 : ℚ) ≤ 100 ∧ (100 : ℚ) < 315 ∧ (0 : ℚ) ≤ 120 ∧ (120 : ℚ) < 360 ∧
    ((((120 : ℚ) < bnorm (100 + 45) ∧ bnorm (100 - 45) < 120) ↔
      ((100 : ℚ) - 45 < 120 ∧ (120 : ℚ) < 100 + 45)) ∧
    (∀ w' : ℚ, 0 ≤ w' → w' < 360 → w' < 45 ∨ 315 ≤ w' →
      ¬((120 : ℚ) < bnorm (w' + 45) ∧ bnorm (w' - 45) < 120)) ∧
    (¬((100 : ℚ) - 45 < 120 ∧ (120 : ℚ) < 100 + 45) →
      ∀ tgt : Option Target,
        tacking_step true tgt none none 15 45 100 120 120 =
          .ok (120, none, none)) ∧
    ((100 : ℚ) - 45 < 120 → (120 : ℚ) < 100 + 45 → bnorm (120 - 100) ≤ 180 →
      tacking_step true (some (.point ⟨0, 0⟩)) none none 15 45 100 120 120 =
        .ok (100 + 45, some false, some true)) ∧
    ((100 : ℚ) - 45 < 120 → (120 : ℚ) < 100 + 45 → 180 < bnorm (120 - 100) →
      tacking_step true (some (.point ⟨0, 0⟩)) none none 15 45 100 120 120 =
        .ok (100 - 45, some true, some false))) :=
  ⟨by norm_num, by norm_num, by norm_num, by norm_num,
   c2_engagement_amended ⟨0, 0⟩ none none 100 120 120 (by norm_num)
     (by norm_num) (by norm_num) (by norm_num)⟩

-- claim C5: the emergency watchdog

/-- C5 (code-bug evidence): the constructor initializes
`last_time_rudder_not_maxed` to the epoch 0, not to the construction
time, so the very first tick whose rudder is saturated — here heading
270 against a bearing-90 target gives error -180 and rudder 108, past
the threshold 40 — already satisfies `now - last_time > 20` at
wall-clock `now = 1000` and triggers the recovery branch with zero
seconds of sustained saturation; the triggered call `override_rudder()`
on line 160 then raises NameError, because the name is only defined as a
method, never as a global. -/
theorem c5_watchdog_first_tick :
    (initState false false true).last_time_rudder_not_maxed = 0 ∧
    clamp180 (-(3/5 * (delta 270 90 + 0) + 0 *
      clampQ (0 + (delta 270 90 + 0)) 200)) = 108 ∧
    ¬(|(108 : ℚ)| < 40) ∧ ((20 : ℚ) < 1000 - 0) ∧
    (update { initState false false true with target := some (Target.bearing 90) }
      ⟨270, 0, 0, 0, 0, 1000⟩).2 = .error .nameError := by
  refine ⟨rfl, ?_, ?_, ?_, ?_⟩ <;>
    norm_num [update, initState, cross_track_step, tacking_step, target_heading0,
      post_tack, tick_error, tick_integrator, tick_rudder, clampQ, clamp180,
      delta, bnorm, pymod, emittedRudder]

-- claim C6: update never raises

/-- C6 (code-bug evidence): `update` can raise.  With tacking enabled, a
bare bearing target of 100 degrees inside the engagement interval around
wind 90 reaches line 98, where `position.bearing_to` is applied to a
`Bearing` and raises AttributeError; with the emergency feature enabled,
a saturated first tick (heading 0, bearing target 180, rudder 108)
reaches the undefined global `override_rudder()` on line 160 and raises
NameError. -/
theorem c6_update_raises :
    (update { initState true false false with target := some (Target.bearing 100) }
      ⟨0, 90, 0, 0, 0, 0⟩).2 = .error .attributeError ∧
    (update { initState false false true with target := some (Target.bearing 180) }
      ⟨0, 0, 0, 0, 0, 500⟩).2 = .error .nameError := by
  constructor <;>
    norm_num [update, initState, cross_track_step, tacking_step, target_heading0,
      post_tack, tick_error, tick_integrator, tick_rudder, clampQ, clamp180,
      delta, bnorm, pymod]
